import Mathlib

/-!
Verification of the image-grouping library (`src/ImageGrouper.js`) against its
natural-language specification.

The JavaScript class `ImageGrouper` is shallowly embedded below:

* JS numbers that take part in classification arithmetic are modelled as `ℚ`
  (all values arising here are exact small rationals); pixel channels are `ℕ`.
* An image handle is modelled by the capability interface the spec describes:
  declared `width`, `height`, and a pixel-sampling function.  The canvas
  round-trip (`drawImage` + `getImageData`) in `isBlankImage` is this sampling
  capability.
* The JS `||` default-merging in `groupImages`
  (`options.blankColor || this.config.delimiterColor`,
  `options.threshold || this.config.colorThreshold`) is embedded by `jsOrString`
  / `jsOrQ`, which fall back exactly on the falsy values of the relevant value
  domains (`""` for strings, `0` for numbers).
* The persistence path (`saveGroups`, folder creation, file moves) is a no-op
  placeholder collaborator outside the algorithmic core and is not modelled;
  `groupImages` is embedded as its grouping result (the `saveGroups: false`
  return value).
-/

namespace ImageGrouper

/-- An RGB triple, each channel an integer (0–255 in the intended domain),
as produced by `hexToRgb` and by pixel sampling. -/
structure RGB where
  r : ℕ
  g : ℕ
  b : ℕ
deriving DecidableEq, Repr

/-- The image-handle capability interface: declared width and height, and
`samplePixel x y`, modelling `ctx.getImageData(x, y, 1, 1).data` after the
image has been drawn on a canvas of its own dimensions. -/
structure Image where
  width : ℕ
  height : ℕ
  samplePixel : ℕ → ℕ → RGB

/-- An image whose every pixel has the same color (a synthetic fixture). -/
def constImage (c : RGB) (w h : ℕ) : Image :=
  ⟨w, h, fun _ _ => c⟩

/-- True on the character class `[a-f\d]` of the regex in `hexToRgb`,
with the `i` flag (so `A`–`F` also match). -/
def isHexDigitChar (c : Char) : Bool :=
  (decide ('0' ≤ c) && decide (c ≤ '9')) ||
  (decide ('a' ≤ c) && decide (c ≤ 'f')) ||
  (decide ('A' ≤ c) && decide (c ≤ 'F'))

/-- Value of one hex digit, as used by `parseInt(_, 16)` on matched digits. -/
def hexVal (c : Char) : ℕ :=
  if '0' ≤ c ∧ c ≤ '9' then c.toNat - '0'.toNat
  else if 'a' ≤ c ∧ c ≤ 'f' then c.toNat - 'a'.toNat + 10
  else if 'A' ≤ c ∧ c ≤ 'F' then c.toNat - 'A'.toNat + 10
  else 0

/-- The `#?` part of the regex in `hexToRgb`: an optional leading `#` is
consumed (the rest of the anchored pattern then has to match what remains). -/
def stripHash : List Char → List Char
  | '#' :: rest => rest
  | cs => cs

/-- `hexToRgb(hex)` from the source: the anchored regex
`^#?([a-f\d]{2})([a-f\d]{2})([a-f\d]{2})$/i` either matches — an optional
leading `#` followed by exactly six case-insensitive hex digits — and each
digit pair is parsed as a channel, or the fallback `{r:255,g:255,b:255}`
is returned. -/
def hexToRgb (hex : String) : RGB :=
  match stripHash hex.data with
  | [c1, c2, c3, c4, c5, c6] =>
    if isHexDigitChar c1 && isHexDigitChar c2 && isHexDigitChar c3 &&
       isHexDigitChar c4 && isHexDigitChar c5 && isHexDigitChar c6 then
      ⟨16 * hexVal c1 + hexVal c2, 16 * hexVal c3 + hexVal c4,
       16 * hexVal c5 + hexVal c6⟩
    else ⟨255, 255, 255⟩
  | _ => ⟨255, 255, 255⟩

/-- Follows the spec's words (§4.1), for comparison with `hexToRgb`:
"accepts a string optionally prefixed with `#`, exactly 6 hexadecimal digits
(case-insensitive), each pair interpreted as a channel 0–255.  On any other
shape (wrong length, non-hex characters, missing pairs), returns the fallback
color (255,255,255)". -/
def specHexToColor (s : String) : RGB :=
  let cs := if s.data.head? = some '#' then s.data.tail else s.data
  if cs.length = 6 && cs.all isHexDigitChar then
    ⟨16 * hexVal (cs.getD 0 '0') + hexVal (cs.getD 1 '0'),
     16 * hexVal (cs.getD 2 '0') + hexVal (cs.getD 3 '0'),
     16 * hexVal (cs.getD 4 '0') + hexVal (cs.getD 5 '0')⟩
  else ⟨255, 255, 255⟩

/-- `colorDifference(hex1, hex2)` from the source: Euclidean distance in RGB
space between the parsed colors (`Math.sqrt` of the sum of squared channel
differences). -/
noncomputable def colorDifference (hex1 hex2 : String) : ℝ :=
  let rgb1 := hexToRgb hex1
  let rgb2 := hexToRgb hex2
  Real.sqrt (((rgb1.r : ℝ) - rgb2.r) ^ 2 + ((rgb1.g : ℝ) - rgb2.g) ^ 2 +
             ((rgb1.b : ℝ) - rgb2.b) ^ 2)

/-- The sample points built in `isBlankImage` from the image's declared
dimensions: center `(⌊w/2⌋, ⌊h/2⌋)`, quarter `(⌊w/4⌋, ⌊h/4⌋)` and
three-quarter `(⌊3w/4⌋, ⌊3h/4⌋)` (`Math.floor` is `ℕ` division here). -/
def samplePoints (width height : ℕ) : List (ℕ × ℕ) :=
  [(width / 2, height / 2),
   (width / 4, height / 4),
   (3 * width / 4, 3 * height / 4)]

/-- The per-point contribution accumulated into `totalDiff` in `isBlankImage`:
`Math.abs(pixel[0] - targetRGB.r) + Math.abs(pixel[1] - targetRGB.g) +
Math.abs(pixel[2] - targetRGB.b)` for the pixel sampled at `p`. -/
def pointDiff (img : Image) (target : RGB) (p : ℕ × ℕ) : ℕ :=
  let pixel := img.samplePixel p.1 p.2
  (((pixel.r : ℤ) - target.r).natAbs + ((pixel.g : ℤ) - target.g).natAbs +
   ((pixel.b : ℤ) - target.b).natAbs)

/-- `totalDiff` in `isBlankImage`: the sum of `pointDiff` over the three
sample points. -/
def totalDiff (img : Image) (target : RGB) : ℕ :=
  ((samplePoints img.width img.height).map (pointDiff img target)).sum

/-- `avgDiff` in `isBlankImage`: `totalDiff / samplePoints.length`. -/
def avgDiff (img : Image) (blankColor : String) : ℚ :=
  (totalDiff img (hexToRgb blankColor) : ℚ) /
    ((samplePoints img.width img.height).length : ℚ)

/-- `isBlankImage(image, blankColor, threshold)` from the source:
`avgDiff <= threshold`. -/
def isBlankImage (img : Image) (blankColor : String) (threshold : ℚ) : Bool :=
  decide (avgDiff img blankColor ≤ threshold)

/-- The JS default parameter values of `isBlankImage`
(`blankColor = '#FFFFFF'`, `threshold = 10`): a direct call that omits both
arguments computes this, whatever the instance configuration. -/
def isBlankImageDefaults (img : Image) : Bool :=
  isBlankImage img "#FFFFFF" 10

/-- Follows the spec's words (§4.2), for comparison with `isBlankImage`:
"for each of the 3 sample points, sample the pixel color from the image,
compute the mean absolute channel difference against blankColor —
`(|Δr| + |Δg| + |Δb|) / 3` per point — then average that quantity across the
3 points". -/
def specMeanAbsAvg (img : Image) (blankColor : String) : ℚ :=
  let target := hexToRgb blankColor
  (((samplePoints img.width img.height).map
      (fun p => (pointDiff img target p : ℚ) / 3)).sum) /
    ((samplePoints img.width img.height).length : ℚ)

/-- The classifier configuration held in `this.config` after the constructor
merges user configuration over the defaults
(`delimiterColor: '#FFFFFF'`, `colorThreshold: 10`).  The persistence-only
fields (`groupFolder`, `namingScheme`) play no role in classification or
grouping and are not modelled. -/
structure GrouperConfig where
  delimiterColor : String := "#FFFFFF"
  colorThreshold : ℚ := 10

/-- The per-call `options` object of `groupImages`; `none` models an omitted
property (JS `undefined`). -/
structure GroupOptions where
  blankColor : Option String := none
  threshold : Option ℚ := none

/-- JS `o || d` on the string domain: falls back when `o` is omitted or is
the falsy string `""`. -/
def jsOrString (o : Option String) (d : String) : String :=
  match o with
  | some s => if s = "" then d else s
  | none => d

/-- JS `o || d` on the (rational) number domain: falls back when `o` is
omitted or is the falsy number `0`. -/
def jsOrQ (o : Option ℚ) (d : ℚ) : ℚ :=
  match o with
  | some t => if t = 0 then d else t
  | none => d

/-- The loop of `groupImages`: one pass over `images` carrying the mutable
`currentGroup`; a blank image flushes a non-empty current group, a non-blank
image is appended, and a non-empty buffer is flushed after the pass. -/
def groupImagesAux (blankColor : String) (threshold : ℚ) :
    List Image → List Image → List (List Image)
  | [], currentGroup => if currentGroup.isEmpty then [] else [currentGroup]
  | img :: rest, currentGroup =>
    if isBlankImage img blankColor threshold then
      if currentGroup.isEmpty then
        groupImagesAux blankColor threshold rest []
      else
        currentGroup :: groupImagesAux blankColor threshold rest []
    else
      groupImagesAux blankColor threshold rest (currentGroup ++ [img])

/-- `groupImages(images, options)` from the source (its grouping result: the
no-op persistence path behind `saveGroups` is an external collaborator).
The effective blank color and threshold come from `options` with JS `||`
fallback to the instance configuration. -/
def groupImages (cfg : GrouperConfig) (images : List Image)
    (options : GroupOptions) : List (List Image) :=
  let blankColor := jsOrString options.blankColor cfg.delimiterColor
  let threshold := jsOrQ options.threshold cfg.colorThreshold
  groupImagesAux blankColor threshold images []

/-! ### Helper lemmas -/

theorem hexToRgb_white : hexToRgb "#FFFFFF" = ⟨255, 255, 255⟩ := by decide

theorem hexToRgb_black : hexToRgb "#000000" = ⟨0, 0, 0⟩ := by decide

theorem groupImagesAux_flatten (c : String) (t : ℚ) :
    ∀ (l acc : List Image),
      (groupImagesAux c t l acc).flatten =
        acc ++ l.filter (fun img => !isBlankImage img c t)
  | [], acc => by
    by_cases h : acc.isEmpty <;>
      simp_all [groupImagesAux, List.isEmpty_iff]
  | img :: rest, acc => by
    by_cases hb : isBlankImage img c t
    · by_cases h : acc.isEmpty <;>
        simp_all [groupImagesAux, List.isEmpty_iff, groupImagesAux_flatten c t rest]
    · simp_all [groupImagesAux, groupImagesAux_flatten c t rest (acc ++ [img])]

theorem groupImagesAux_ne_nil (c : String) (t : ℚ) :
    ∀ (l acc : List Image), ∀ g ∈ groupImagesAux c t l acc, g ≠ []
  | [], acc => by
    by_cases h : acc.isEmpty <;>
      simp_all [groupImagesAux, List.isEmpty_iff]
  | img :: rest, acc => by
    intro g hg
    by_cases hb : isBlankImage img c t
    · by_cases h : acc.isEmpty
      · simp only [groupImagesAux, hb, if_pos h, if_true] at hg
        exact groupImagesAux_ne_nil c t rest [] g hg
      · simp only [groupImagesAux, hb, if_neg h, if_true, List.mem_cons] at hg
        rcases hg with rfl | hg
        · simpa [List.isEmpty_iff] using h
        · exact groupImagesAux_ne_nil c t rest [] g hg
    · simp only [groupImagesAux, hb, if_false] at hg
      exact groupImagesAux_ne_nil c t rest (acc ++ [img]) g hg

theorem groupImagesAux_of_no_blank (c : String) (t : ℚ) :
    ∀ (l acc : List Image), (∀ img ∈ l, isBlankImage img c t = false) →
      groupImagesAux c t l acc = if (acc ++ l).isEmpty then [] else [acc ++ l]
  | [], acc => by
    intro _
    simp only [List.append_nil]
    rfl
  | img :: rest, acc => by
    intro h
    have hb : isBlankImage img c t = false := h img (by simp)
    have ih := groupImagesAux_of_no_blank c t rest (acc ++ [img])
      (fun i hi => h i (by simp [hi]))
    simp only [groupImagesAux, hb, Bool.false_eq_true, if_false, ih]
    simp

theorem groupImagesAux_of_all_blank (c : String) (t : ℚ) :
    ∀ (l acc : List Image), (∀ img ∈ l, isBlankImage img c t = true) →
      groupImagesAux c t l acc = if acc.isEmpty then [] else [acc]
  | [], acc => by
    intro _
    rfl
  | img :: rest, acc => by
    intro h
    have hb : isBlankImage img c t = true := h img (by simp)
    have ih := groupImagesAux_of_all_blank c t rest []
      (fun i hi => h i (by simp [hi]))
    by_cases ha : acc.isEmpty <;>
      simp [groupImagesAux, hb, ha, ih]

theorem stripHash_eq_spec (cs : List Char) :
    stripHash cs = if cs.head? = some '#' then cs.tail else cs := by
  rcases cs with _ | ⟨c, rest⟩
  · rfl
  · by_cases hc : c = '#'
    · subst hc
      rfl
    · rw [if_neg (by simp [hc])]
      unfold stripHash
      split <;> simp_all

theorem isBlank_black44_false :
    isBlankImage (constImage ⟨0, 0, 0⟩ 4 4) "#FFFFFF" 10 = false := by
  norm_num [isBlankImage, avgDiff, totalDiff, samplePoints, pointDiff, constImage,
    hexToRgb_white]

theorem isBlank_white44_true :
    isBlankImage (constImage ⟨255, 255, 255⟩ 4 4) "#FFFFFF" 10 = true := by
  norm_num [isBlankImage, avgDiff, totalDiff, samplePoints, pointDiff, constImage,
    hexToRgb_white]

theorem avgDiff_245 : avgDiff (constImage ⟨255, 255, 245⟩ 4 4) "#FFFFFF" = 10 := by
  norm_num [avgDiff, totalDiff, samplePoints, pointDiff, constImage, hexToRgb_white]

/-! ### Claim theorems -/

/-- C1: for every input list of images and every configuration, concatenating
all groups returned by `groupImages`, in order, equals the subsequence of the
input images that `isBlankImage` (at the effective blank color and threshold)
classifies as non-blank, in the original input order. -/
theorem C1_flatten_groups (cfg : GrouperConfig) (images : List Image)
    (options : GroupOptions) :
    (groupImages cfg images options).flatten =
      images.filter (fun img =>
        !isBlankImage img (jsOrString options.blankColor cfg.delimiterColor)
          (jsOrQ options.threshold cfg.colorThreshold)) := by
  simpa using groupImagesAux_flatten _ _ images []

/-- C2, counterexample to the claim as stated: for the synthetic image whose
every pixel is (255,240,255) against blank color `#FFFFFF` and threshold 10,
the spec's quantity — the per-point mean absolute channel difference
`(|Δr|+|Δg|+|Δb|)/3`, averaged over the 3 points — is 5 ≤ 10, yet
`isBlankImage` returns `false` (the code's average is 15 > 10): the claimed
"if and only if" fails. -/
theorem C2_counterexample :
    specMeanAbsAvg (constImage ⟨255, 240, 255⟩ 4 4) "#FFFFFF" ≤ 10 ∧
    isBlankImage (constImage ⟨255, 240, 255⟩ 4 4) "#FFFFFF" 10 = false := by
  constructor <;>
    norm_num [specMeanAbsAvg, isBlankImage, avgDiff, totalDiff, samplePoints,
      pointDiff, constImage, hexToRgb_white]

/-- C2 as amended: `isBlankImage` returns true iff the average across the 3
sample points of the per-point **sum** of absolute channel differences against
the blank color — `|Δr| + |Δg| + |Δb|` per point, averaged over the 3 points —
is ≤ threshold (there is no division by 3 channels inside a point; the only
division is by the number of sample points). -/
theorem C2_blank_iff (img : Image) (blankColor : String) (threshold : ℚ) :
    isBlankImage img blankColor threshold = true ↔
      ((pointDiff img (hexToRgb blankColor) (img.width / 2, img.height / 2) : ℚ) +
       (pointDiff img (hexToRgb blankColor) (img.width / 4, img.height / 4) : ℚ) +
       (pointDiff img (hexToRgb blankColor) (3 * img.width / 4, 3 * img.height / 4) : ℚ)) / 3 ≤
        threshold := by
  rw [isBlankImage, decide_eq_true_iff]
  unfold avgDiff totalDiff samplePoints
  push_cast
  norm_num [add_assoc]

/-- C3, counterexample to the claim as stated: (1) with configured threshold 5
and an explicit per-call `threshold: 0`, an image at average difference 3 is
still treated as blank (`groupImages` returns no group), although at the
caller-supplied threshold 0 it is non-blank — the `||` merge discards the
falsy override 0; (2) a direct `isBlankImage` call with omitted arguments on
a classifier configured with `delimiterColor: '#000000'`, `colorThreshold: 5`
classifies the all-white image as blank via the built-in defaults
(`'#FFFFFF'`, 10), although against the configured values it is non-blank. -/
theorem C3_counterexample :
    groupImages ⟨"#FFFFFF", 5⟩ [constImage ⟨255, 255, 252⟩ 4 4] ⟨none, some 0⟩ = [] ∧
    isBlankImage (constImage ⟨255, 255, 252⟩ 4 4) "#FFFFFF" 0 = false ∧
    isBlankImageDefaults (constImage ⟨255, 255, 255⟩ 4 4) = true ∧
    isBlankImage (constImage ⟨255, 255, 255⟩ 4 4) "#000000" 5 = false := by
  refine ⟨?_, ?_, ?_, ?_⟩ <;>
    norm_num [groupImages, jsOrString, jsOrQ, groupImagesAux, isBlankImageDefaults,
      isBlankImage, avgDiff, totalDiff, samplePoints, pointDiff, constImage,
      hexToRgb_white, hexToRgb_black]

/-- C3 as amended: `groupImages` classifies with the caller-supplied override
when it is supplied and truthy (a nonzero threshold, a nonempty color string),
and falls back to the classifier's configured `delimiterColor` and
`colorThreshold` when the override is omitted **or falsy** (threshold 0, the
empty string) — the merge is JS `||`; a direct `isBlankImage` call with
omitted arguments uses the built-in parameter defaults `'#FFFFFF'` and 10,
not the classifier's configuration. -/
theorem C3_effective_config (cfg : GrouperConfig) (options : GroupOptions) :
    (∀ images : List Image, groupImages cfg images options =
       groupImagesAux (jsOrString options.blankColor cfg.delimiterColor)
         (jsOrQ options.threshold cfg.colorThreshold) images []) ∧
    (∀ t : ℚ, options.threshold = some t → t ≠ 0 →
       jsOrQ options.threshold cfg.colorThreshold = t) ∧
    ((options.threshold = none ∨ options.threshold = some 0) →
       jsOrQ options.threshold cfg.colorThreshold = cfg.colorThreshold) ∧
    (∀ s : String, options.blankColor = some s → s ≠ "" →
       jsOrString options.blankColor cfg.delimiterColor = s) ∧
    ((options.blankColor = none ∨ options.blankColor = some "") →
       jsOrString options.blankColor cfg.delimiterColor = cfg.delimiterColor) ∧
    (∀ img : Image, isBlankImageDefaults img = isBlankImage img "#FFFFFF" 10) := by
  refine ⟨fun _ => rfl, ?_, ?_, ?_, ?_, fun _ => rfl⟩
  · intro t ht htz
    simp [jsOrQ, ht, htz]
  · rintro (ht | ht) <;> simp [jsOrQ, ht]
  · intro s hs hsz
    simp [jsOrString, hs, hsz]
  · rintro (hs | hs) <;> simp [jsOrString, hs]

/-- Witness for C3: the amended override/fallback behavior evaluated at
concrete configurations — a truthy threshold override 2 over configured 7 is
used, the overrides `0` and "omitted" both fall back to 7, a nonempty color
override is used, and an omitted color falls back to the configured one. -/
theorem C3_witness :
    jsOrQ (some 2) (7 : ℚ) = 2 ∧ jsOrQ (some 0) (7 : ℚ) = 7 ∧
    jsOrQ none (7 : ℚ) = 7 ∧ jsOrString (some "#ABCDEF") "#123456" = "#ABCDEF" ∧
    jsOrString none "#123456" = "#123456" :=
  ⟨(C3_effective_config ⟨"#123456", 7⟩ ⟨some "#ABCDEF", some 2⟩).2.1 2 rfl (by norm_num),
   (C3_effective_config ⟨"#123456", 7⟩ ⟨some "#ABCDEF", some 0⟩).2.2.1 (Or.inr rfl),
   (C3_effective_config ⟨"#123456", 7⟩ ⟨some "#ABCDEF", none⟩).2.2.1 (Or.inl rfl),
   (C3_effective_config ⟨"#123456", 7⟩ ⟨some "#ABCDEF", some 2⟩).2.2.2.1 "#ABCDEF" rfl
     (by decide),
   (C3_effective_config ⟨"#123456", 7⟩ ⟨none, some 2⟩).2.2.2.2.1 (Or.inl rfl)⟩

/-- C4: for every input list and configuration, no group in the list returned
by `groupImages` is empty — leading, trailing or consecutive delimiter images
never produce an empty group. -/
theorem C4_no_empty_group (cfg : GrouperConfig) (images : List Image)
    (options : GroupOptions) :
    ∀ g ∈ groupImages cfg images options, g ≠ [] := fun g hg =>
  groupImagesAux_ne_nil _ _ images [] g hg

/-- Witness for C4: the one group produced for a single all-black input image
under the default configuration is non-empty. -/
theorem C4_witness :
    [constImage ⟨0, 0, 0⟩ 4 4] ≠ ([] : List Image) :=
  C4_no_empty_group ⟨"#FFFFFF", 10⟩ [constImage ⟨0, 0, 0⟩ 4 4] ⟨none, none⟩
    [constImage ⟨0, 0, 0⟩ 4 4]
    (by
      have h : groupImages ⟨"#FFFFFF", 10⟩ [constImage ⟨0, 0, 0⟩ 4 4] ⟨none, none⟩ =
          [[constImage ⟨0, 0, 0⟩ 4 4]] := by
        simp [groupImages, jsOrString, jsOrQ, groupImagesAux, isBlank_black44_false]
      rw [h]
      exact List.mem_singleton.mpr rfl)

/-- C5: if the sampled average difference computed by `isBlankImage` equals
the threshold exactly, the image is classified blank (the comparison is
inclusive), and if it is strictly greater than the threshold, the image is
classified non-blank. -/
theorem C5_threshold_boundary (img : Image) (blankColor : String) (threshold : ℚ) :
    (avgDiff img blankColor = threshold → isBlankImage img blankColor threshold = true) ∧
    (threshold < avgDiff img blankColor → isBlankImage img blankColor threshold = false) := by
  constructor
  · intro h
    simp [isBlankImage, h]
  · intro h
    simp [isBlankImage, not_le.mpr h]

/-- Witness for C5: an image whose sampled average difference against
`#FFFFFF` is exactly 10 is blank at threshold 10 and non-blank at
threshold 9. -/
theorem C5_witness :
    isBlankImage (constImage ⟨255, 255, 245⟩ 4 4) "#FFFFFF" 10 = true ∧
    isBlankImage (constImage ⟨255, 255, 245⟩ 4 4) "#FFFFFF" 9 = false :=
  ⟨(C5_threshold_boundary _ _ _).1 avgDiff_245,
   (C5_threshold_boundary _ _ _).2 (by rw [avgDiff_245]; norm_num)⟩

/-- C6, counterexample to the claim as stated: the empty input list has no
image classified blank (vacuously), yet `groupImages` returns zero groups,
not "exactly one group containing every input image". -/
theorem C6_counterexample :
    (∀ img ∈ ([] : List Image), isBlankImage img "#FFFFFF" 10 = false) ∧
    (groupImages ⟨"#FFFFFF", 10⟩ [] ⟨none, none⟩).length = 0 :=
  ⟨by simp, rfl⟩

/-- C6 as amended: `groupImages` on an empty input returns an empty group
list; on a **nonempty** input with no image classified blank it returns
exactly one group containing every input image in order; and on an input in
which every image is classified blank it returns an empty group list. -/
theorem C6_edge_cases (cfg : GrouperConfig) (options : GroupOptions) :
    groupImages cfg [] options = [] ∧
    (∀ images : List Image, images ≠ [] →
      (∀ img ∈ images,
        isBlankImage img (jsOrString options.blankColor cfg.delimiterColor)
          (jsOrQ options.threshold cfg.colorThreshold) = false) →
      groupImages cfg images options = [images]) ∧
    (∀ images : List Image,
      (∀ img ∈ images,
        isBlankImage img (jsOrString options.blankColor cfg.delimiterColor)
          (jsOrQ options.threshold cfg.colorThreshold) = true) →
      groupImages cfg images options = []) := by
  refine ⟨rfl, ?_, ?_⟩
  · intro images hne hall
    have h := groupImagesAux_of_no_blank _ _ images [] hall
    simpa [groupImages, List.isEmpty_iff, hne] using h
  · intro images hall
    have h := groupImagesAux_of_all_blank _ _ images [] hall
    simpa [groupImages] using h

/-- Witness for C6: under the default configuration, a single non-blank
(all-black) image yields exactly one group holding it, and a single blank
(all-white) image yields no groups. -/
theorem C6_witness :
    groupImages ⟨"#FFFFFF", 10⟩ [constImage ⟨0, 0, 0⟩ 4 4] ⟨none, none⟩ =
      [[constImage ⟨0, 0, 0⟩ 4 4]] ∧
    groupImages ⟨"#FFFFFF", 10⟩ [constImage ⟨255, 255, 255⟩ 4 4] ⟨none, none⟩ = [] := by
  constructor
  · exact (C6_edge_cases ⟨"#FFFFFF", 10⟩ ⟨none, none⟩).2.1 _ (by simp)
      (by
        intro img h
        rw [List.mem_singleton] at h
        subst h
        exact isBlank_black44_false)
  · exact (C6_edge_cases ⟨"#FFFFFF", 10⟩ ⟨none, none⟩).2.2 _
      (by
        intro img h
        rw [List.mem_singleton] at h
        subst h
        exact isBlank_white44_true)

/-- C7: `hexToRgb` parses a string optionally prefixed with `#` followed by
exactly 6 case-insensitive hexadecimal digits into the RGB triple of its
three digit pairs, and on any other shape returns the fallback (255,255,255)
instead of failing; in particular on `"#FFFFFF"` it returns (255,255,255) and
on `"not-a-color"` it returns the fallback (255,255,255). -/
theorem C7_hexToRgb_spec :
    (∀ s : String, hexToRgb s = specHexToColor s) ∧
    hexToRgb "#FFFFFF" = ⟨255, 255, 255⟩ ∧
    hexToRgb "not-a-color" = ⟨255, 255, 255⟩ := by
  refine ⟨?_, by decide, by decide⟩
  intro s
  unfold hexToRgb specHexToColor
  rw [stripHash_eq_spec]
  generalize (if s.data.head? = some '#' then s.data.tail else s.data) = cs
  rcases cs with _ | ⟨c1, _ | ⟨c2, _ | ⟨c3, _ | ⟨c4, _ | ⟨c5, _ | ⟨c6, _ | ⟨c7, rest⟩⟩⟩⟩⟩⟩⟩ <;>
    simp [List.all, List.getD, Bool.and_assoc]

/-- C8: `colorDifference` computes the Euclidean distance in RGB space — the
square root of the sum over the three channels of the squared channel
differences of the parsed colors; in particular the distance of (255,255,255)
to itself is 0 and the distance of (0,0,0) to (255,255,255) is √(3·255²). -/
theorem C8_colorDifference_euclidean :
    (∀ h1 h2 : String, colorDifference h1 h2 =
       Real.sqrt ((((hexToRgb h1).r : ℝ) - ((hexToRgb h2).r : ℝ)) ^ 2 +
                  (((hexToRgb h1).g : ℝ) - ((hexToRgb h2).g : ℝ)) ^ 2 +
                  (((hexToRgb h1).b : ℝ) - ((hexToRgb h2).b : ℝ)) ^ 2)) ∧
    colorDifference "#FFFFFF" "#FFFFFF" = 0 ∧
    colorDifference "#000000" "#FFFFFF" = Real.sqrt (3 * 255 ^ 2) := by
  refine ⟨fun h1 h2 => rfl, ?_, ?_⟩
  · simp [colorDifference, hexToRgb_white]
  · simp only [colorDifference, hexToRgb_white, hexToRgb_black]
    norm_num

/-- C9: the classifier samples exactly 3 points, at
(⌊w/2⌋, ⌊h/2⌋), (⌊w/4⌋, ⌊h/4⌋) and (⌊3w/4⌋, ⌊3h/4⌋), computed from the
image's own declared width and height, and its total and average differences
range over exactly these points. -/
theorem C9_three_sample_points (img : Image) :
    samplePoints img.width img.height =
      [(img.width / 2, img.height / 2), (img.width / 4, img.height / 4),
       (3 * img.width / 4, 3 * img.height / 4)] ∧
    (samplePoints img.width img.height).length = 3 ∧
    (∀ target : RGB, totalDiff img target =
      ((samplePoints img.width img.height).map (pointDiff img target)).sum) ∧
    (∀ blankColor : String, avgDiff img blankColor =
      (totalDiff img (hexToRgb blankColor) : ℚ) / 3) :=
  ⟨rfl, rfl, fun _ => rfl, fun _ => rfl⟩

/-- C10: for every image with width ≥ 1 and height ≥ 1, all three sample
coordinates satisfy 0 ≤ x ≤ width−1 and 0 ≤ y ≤ height−1 (0 ≤ holds by the
coordinates being `ℕ`), so every pixel read is within bounds — the embedding,
like the code, performs no clamping, and the bound comes from floor-division
alone. -/
theorem C10_in_bounds (w h : ℕ) (hw : 1 ≤ w) (hh : 1 ≤ h) :
    ∀ p ∈ samplePoints w h, p.1 ≤ w - 1 ∧ p.2 ≤ h - 1 := by
  intro p hp
  have hw2 : w / 2 < w := Nat.div_lt_self (by omega) (by omega)
  have hh2 : h / 2 < h := Nat.div_lt_self (by omega) (by omega)
  have hw4 : w / 4 < w := Nat.div_lt_self (by omega) (by omega)
  have hh4 : h / 4 < h := Nat.div_lt_self (by omega) (by omega)
  have hw34 : 3 * w / 4 < w := (Nat.div_lt_iff_lt_mul (by omega)).mpr (by omega)
  have hh34 : 3 * h / 4 < h := (Nat.div_lt_iff_lt_mul (by omega)).mpr (by omega)
  simp [samplePoints] at hp
  rcases hp with rfl | rfl | rfl <;> constructor <;> simp <;> omega

/-- Witness for C10: at declared dimensions 4 × 4 the center sample point
(2,2) is within the bounds 0 ≤ 2 ≤ 3. -/
theorem C10_witness :
    1 ≤ 4 ∧ (2, 2) ∈ samplePoints 4 4 ∧ 2 ≤ 4 - 1 ∧ 2 ≤ 4 - 1 :=
  ⟨by decide, by decide,
   (C10_in_bounds 4 4 (by decide) (by decide) (2, 2) (by decide)).1,
   (C10_in_bounds 4 4 (by decide) (by decide) (2, 2) (by decide)).2⟩

end ImageGrouper
